import Mathlib

/-!
Verification development for the hotel-room reservation frontend.

The embedding below translates the client-side session layer of the
repository: the typed API wrapper (services/api.ts) and the App component
(App.tsx): input validation, the busy flag, the auto-dismissing message,
the registry synthesis, the floor view, and the path dialog.

Stateful React code is embedded as explicit state passing: each event
handler becomes a pure function from the component state (plus the outcome
of the awaited network calls, which the handler cannot influence) to the
new component state together with the list of observable events (state
setter calls and network calls) in program order.  JavaScript timers
(setTimeout) are embedded as an explicit list of pending deadlines with a
step function that fires every due callback.
-/

/-- Room status, from the union type in services/api.ts
(status: available | booked). -/
inductive RoomStatus
  | available
  | booked
deriving DecidableEq, Repr

/-- Room record, from the Room interface in services/api.ts / the RoomData
interface in App.tsx. -/
structure Room where
  room_number : Nat
  floor : Nat
  position : Nat
  status : RoomStatus
  guest_id : Option String := none
deriving DecidableEq, Repr

/-- Modelled from the spec: the RoomPathInfo type is imported by App.tsx
from the services module, but its declaration is not among the provided
sources; the spec (§3, RoomPath) gives its fields: room_number, floor,
position, total_time, and an ordered sequence of direction steps. -/
structure RoomPathInfo where
  room_number : Nat
  floor : Nat
  position : Nat
  total_time : Nat
  steps : List String
deriving DecidableEq, Repr

/-- BookingResponse from services/api.ts.  The room_paths field is read by
App.tsx (response.room_paths) but absent from the provided api.ts
interface text; following the spec (§3, BookingResult) it is an optional
sequence of RoomPath records, with none embedding a JavaScript undefined. -/
structure BookingResponse where
  success : Bool
  message : String
  booked_rooms : List Nat
  total_travel_time : Option Nat
  room_paths : Option (List RoomPathInfo) := none
deriving DecidableEq, Repr

/-- RoomStateResponse from services/api.ts.  The rooms mapping
(Record<number, Room>) is embedded as the list of its values in ascending
key order, which is the order Object.values yields for integer keys. -/
structure RoomStateResponse where
  rooms : List Room
  total_rooms : Nat
  available_rooms : Nat
  booked_rooms : Nat
deriving DecidableEq, Repr

/-- MessageResponse from services/api.ts. -/
structure MessageResponse where
  success : Bool
  message : String
deriving DecidableEq, Repr

/-- A decoded HTTP exchange as the api functions observe it: the ok flag of
the response, the decoded success payload, and the detail field that the
book endpoint's error path reads from the JSON error body (none embeds a
body with no detail field). -/
structure ServerResponse (α : Type) where
  ok : Bool
  value : α
  detail : Option String
deriving DecidableEq, Repr

/-- JavaScript logical-or on the parsed detail field, as in
(error.detail || fallback): the fallback is taken when detail is
undefined/null (none) or the empty string (the falsy string). -/
def jsOrElse (s : Option String) (fallback : String) : String :=
  match s with
  | some t => if t = "" then fallback else t
  | none => fallback

namespace api

/-- api.getRooms from services/api.ts: on a non-ok response it throws
Error with the fixed text, never inspecting the body. -/
def getRooms (r : ServerResponse RoomStateResponse) :
    Except String RoomStateResponse :=
  if r.ok then Except.ok r.value else Except.error "Failed to fetch rooms"

/-- api.bookRooms from services/api.ts: on a non-ok response it parses the
body and throws Error(error.detail || "Failed to book rooms"). -/
def bookRooms (numRooms : Int) (guestId : Option String)
    (r : ServerResponse BookingResponse) : Except String BookingResponse :=
  if r.ok then Except.ok r.value
  else Except.error (jsOrElse r.detail "Failed to book rooms")

/-- api.resetBookings from services/api.ts: fixed error text, body not
inspected. -/
def resetBookings (r : ServerResponse MessageResponse) :
    Except String MessageResponse :=
  if r.ok then Except.ok r.value
  else Except.error "Failed to reset bookings"

/-- api.generateRandomOccupancy from services/api.ts: fixed error text,
body not inspected. -/
def generateRandomOccupancy (occupancyPercentage : Nat)
    (r : ServerResponse MessageResponse) : Except String MessageResponse :=
  if r.ok then Except.ok r.value
  else Except.error "Failed to generate random occupancy"

end api

/-- Value of a hexadecimal digit character, for the 0x prefix handling of
JavaScript parseInt. -/
def hexDigitVal (c : Char) : Option Nat :=
  if c.isDigit then some (c.toNat - 48)
  else if ('a' ≤ c ∧ c ≤ 'f') then some (c.toNat - 87)
  else if ('A' ≤ c ∧ c ≤ 'F') then some (c.toNat - 55)
  else none

/-- Decimal run at the head of a character list: JavaScript parseInt reads
the longest leading digit run and ignores the rest; none embeds NaN. -/
def parseDecimalRun (cs : List Char) : Option Nat :=
  let ds := cs.takeWhile Char.isDigit
  if ds = [] then none
  else some (ds.foldl (fun acc d => acc * 10 + (d.toNat - 48)) 0)

/-- Hexadecimal run at the head of a character list, for parseInt after a
0x / 0X prefix. -/
def parseHexRun (cs : List Char) : Option Nat :=
  let ds := cs.takeWhile (fun c => (hexDigitVal c).isSome)
  if ds = [] then none
  else some (ds.foldl (fun acc d => acc * 16 + (hexDigitVal d).getD 0) 0)

/-- JavaScript parseInt with no radix argument, as used by handleBook:
skip leading whitespace, optional sign, then either a 0x/0X-prefixed
hexadecimal run or a decimal run; none embeds NaN. -/
def parseIntJS (s : String) : Option Int :=
  let cs := s.toList.dropWhile Char.isWhitespace
  let signed : Bool × List Char :=
    match cs with
    | '-' :: r => (true, r)
    | '+' :: r => (false, r)
    | r => (false, r)
  let mag : Option Nat :=
    match signed.2 with
    | '0' :: x :: r =>
      if x = 'x' ∨ x = 'X' then parseHexRun r
      else parseDecimalRun signed.2
    | r => parseDecimalRun r
  match mag with
  | none => none
  | some n => some (if signed.1 then -(n : Int) else (n : Int))

/-- JavaScript template-literal interpolation of the optional
total_travel_time number: an undefined value prints as the literal text
undefined. -/
def jsShowOptNat (o : Option Nat) : String :=
  match o with
  | some n => toString n
  | none => "undefined"

/-- initializeRooms from App.tsx: floors 1 to 9 get ten rooms each with
room_number floor*100 + pos + 1, floor 10 gets seven rooms 1001 to 1007,
all available.  The Record keyed by room number is embedded as the list of
its values in ascending key order (the construction inserts keys in
ascending order, which is also the Object.values order for integer keys). -/
def initializeRooms : List Room :=
  (List.flatten ((List.range 9).map (fun i =>
    (List.range 10).map (fun pos =>
      { room_number := (i + 1) * 100 + (pos + 1), floor := i + 1,
        position := pos, status := RoomStatus.available, guest_id := none }))))
  ++ (List.range 7).map (fun pos =>
      { room_number := 1000 + (pos + 1), floor := 10,
        position := pos, status := RoomStatus.available, guest_id := none })

/-- getRoomsForFloor from App.tsx: Object.values(rooms) filtered to the
given floor, sorted ascending by position (Array.prototype.sort with the
comparator a.position - b.position, a stable sort). -/
def getRoomsForFloor (rooms : List Room) (floor : Nat) : List Room :=
  (rooms.filter (fun r => r.floor == floor)).mergeSort
    (fun a b => a.position ≤ b.position)

/-- Kind of a transient message, from the messageType state of App.tsx. -/
inductive MessageType
  | success
  | error
deriving DecidableEq, Repr

/-- The statistics state of App.tsx. -/
structure Statistics where
  total_rooms : Nat
  available_rooms : Nat
  booked_rooms : Nat
deriving DecidableEq, Repr

/-- The component state of App.tsx: one field per useState hook relevant to
the session layer (numRooms input text, rooms registry, loading busy flag,
message and its type, statistics, path-dialog visibility and content). -/
structure AppState where
  numRooms : String
  rooms : List Room
  loading : Bool
  message : String
  messageType : MessageType
  statistics : Statistics
  showPathDialog : Bool
  roomPaths : List RoomPathInfo
deriving DecidableEq, Repr

/-- The four remote operations of the service client, with the request
payload the handler passes. -/
inductive ApiCall
  | getRooms
  | bookRooms (num_rooms : Int)
  | resetBookings
  | generateRandomOccupancy (occupancy_percentage : Nat)
deriving DecidableEq, Repr

/-- Observable events of one handler run, in program order: busy-flag
writes, network calls issued, their observed outcomes, and message
displays. -/
inductive Event
  | setLoading (b : Bool)
  | call (c : ApiCall)
  | respOk (c : ApiCall)
  | respErr (c : ApiCall)
  | setMsg (text : String) (kind : MessageType)
deriving DecidableEq, Repr

/-- Outcome of an awaited api.getRooms call as the caller observes it:
either the decoded response, or a thrown error whose message is carried
when the thrown value is an Error instance (none embeds a thrown
non-Error value, which the catch arm replaces by the generic text). -/
inductive FetchOutcome
  | ok (resp : RoomStateResponse)
  | err (msg : Option String)
deriving DecidableEq, Repr

/-- Outcome of an awaited api.bookRooms call as handleBook observes it. -/
inductive BookOutcome
  | ok (resp : BookingResponse)
  | err (msg : Option String)
deriving DecidableEq, Repr

/-- Outcome of an awaited api.resetBookings or
api.generateRandomOccupancy call. -/
inductive SimpleOutcome
  | ok (resp : MessageResponse)
  | err (msg : Option String)
deriving DecidableEq, Repr

/-- fetchRooms from App.tsx: set loading, await api.getRooms; on success
replace the rooms map and the statistics wholesale; on a thrown error show
it (or the generic text for a non-Error value) as an error message; always
clear loading in the finally block.  The setTimeout scheduled by
showMessage is modelled separately (see MsgState); here showMessage is its
synchronous part, the message and messageType writes. -/
def fetchRooms (st : AppState) (outcome : FetchOutcome) :
    AppState × List Event :=
  match outcome with
  | FetchOutcome.ok resp =>
    ({ st with
        loading := false
        rooms := resp.rooms
        statistics :=
          { total_rooms := resp.total_rooms
            available_rooms := resp.available_rooms
            booked_rooms := resp.booked_rooms } },
     [Event.setLoading true, Event.call ApiCall.getRooms,
      Event.respOk ApiCall.getRooms, Event.setLoading false])
  | FetchOutcome.err m =>
    let text := m.getD "Failed to fetch rooms"
    ({ st with
        loading := false
        message := text
        messageType := MessageType.error },
     [Event.setLoading true, Event.call ApiCall.getRooms,
      Event.respErr ApiCall.getRooms, Event.setMsg text MessageType.error,
      Event.setLoading false])

/-- handleBook from App.tsx.  First parseInt the numRooms input; if NaN or
outside 1..5, show the fixed validation message and return without touching
loading and without any network call.  Otherwise set loading, await
api.bookRooms; on success show the success message built by template
interpolation, await fetchRooms, then if room_paths is truthy and non-empty
replace the dialog content and open the dialog; on a thrown error show its
message; always clear loading in the finally block. -/
def handleBook (st : AppState) (outcome : BookOutcome)
    (fetch : FetchOutcome) : AppState × List Event :=
  match parseIntJS st.numRooms with
  | none =>
    ({ st with
        message := "Please enter a number between 1 and 5"
        messageType := MessageType.error },
     [Event.setMsg "Please enter a number between 1 and 5"
        MessageType.error])
  | some num =>
    if num < 1 ∨ 5 < num then
      ({ st with
          message := "Please enter a number between 1 and 5"
          messageType := MessageType.error },
       [Event.setMsg "Please enter a number between 1 and 5"
          MessageType.error])
    else
      match outcome with
      | BookOutcome.ok resp =>
        let text := resp.message ++ ". Travel time: "
          ++ jsShowOptNat resp.total_travel_time ++ " minutes"
        let st1 := { st with
          loading := true
          message := text
          messageType := MessageType.success }
        let fetched := fetchRooms st1 fetch
        let st2 :=
          match resp.room_paths with
          | some paths =>
            if 0 < paths.length then
              { fetched.1 with roomPaths := paths, showPathDialog := true }
            else fetched.1
          | none => fetched.1
        ({ st2 with loading := false },
         [Event.setLoading true, Event.call (ApiCall.bookRooms num),
          Event.respOk (ApiCall.bookRooms num),
          Event.setMsg text MessageType.success]
         ++ fetched.2 ++ [Event.setLoading false])
      | BookOutcome.err m =>
        let text := m.getD "Failed to book rooms"
        ({ st with
            loading := false
            message := text
            messageType := MessageType.error },
         [Event.setLoading true, Event.call (ApiCall.bookRooms num),
          Event.respErr (ApiCall.bookRooms num),
          Event.setMsg text MessageType.error, Event.setLoading false])

/-- handleReset from App.tsx: set loading, await api.resetBookings; on
success show the fixed success message and refetch; on a thrown error show
its message; always clear loading. -/
def handleReset (st : AppState) (outcome : SimpleOutcome)
    (fetch : FetchOutcome) : AppState × List Event :=
  match outcome with
  | SimpleOutcome.ok _ =>
    let st1 := { st with
      loading := true
      message := "All bookings have been reset"
      messageType := MessageType.success }
    let fetched := fetchRooms st1 fetch
    ({ fetched.1 with loading := false },
     [Event.setLoading true, Event.call ApiCall.resetBookings,
      Event.respOk ApiCall.resetBookings,
      Event.setMsg "All bookings have been reset" MessageType.success]
     ++ fetched.2 ++ [Event.setLoading false])
  | SimpleOutcome.err m =>
    let text := m.getD "Failed to reset bookings"
    ({ st with
        loading := false
        message := text
        messageType := MessageType.error },
     [Event.setLoading true, Event.call ApiCall.resetBookings,
      Event.respErr ApiCall.resetBookings,
      Event.setMsg text MessageType.error, Event.setLoading false])

/-- The constant occupancyPercentage of handleRandom in App.tsx. -/
def occupancyPercentage : Nat := 30

/-- handleRandom from App.tsx: set loading, await
api.generateRandomOccupancy(30); on success show the interpolated success
message and refetch; on a thrown error show its message; always clear
loading. -/
def handleRandom (st : AppState) (outcome : SimpleOutcome)
    (fetch : FetchOutcome) : AppState × List Event :=
  match outcome with
  | SimpleOutcome.ok _ =>
    let text := "Generated random occupancy ("
      ++ toString occupancyPercentage ++ "%)"
    let st1 := { st with
      loading := true
      message := text
      messageType := MessageType.success }
    let fetched := fetchRooms st1 fetch
    ({ fetched.1 with loading := false },
     [Event.setLoading true,
      Event.call (ApiCall.generateRandomOccupancy occupancyPercentage),
      Event.respOk (ApiCall.generateRandomOccupancy occupancyPercentage),
      Event.setMsg text MessageType.success]
     ++ fetched.2 ++ [Event.setLoading false])
  | SimpleOutcome.err m =>
    let text := m.getD "Failed to generate random occupancy"
    ({ st with
        loading := false
        message := text
        messageType := MessageType.error },
     [Event.setLoading true,
      Event.call (ApiCall.generateRandomOccupancy occupancyPercentage),
      Event.respErr (ApiCall.generateRandomOccupancy occupancyPercentage),
      Event.setMsg text MessageType.error, Event.setLoading false])

/-- State of the message display together with the pending setTimeout
deadlines scheduled by showMessage.  Every pending callback is the same
closure, setMessage of the empty string; the code never stores or clears a
timer id. -/
structure MsgState where
  message : String
  messageType : MessageType
  timers : List Nat
deriving DecidableEq, Repr

/-- showMessage from App.tsx, run at instant now: set the message and its
type, and schedule a clear callback for instant now + 3000.  No existing
timer is cancelled. -/
def showMessageAt (now : Nat) (msg : String) (ty : MessageType)
    (st : MsgState) : MsgState :=
  { message := msg, messageType := ty, timers := st.timers ++ [now + 3000] }

/-- The event loop advanced to instant t: every pending setTimeout whose
deadline has been reached fires, and each fired callback sets the message
to the empty string (the cleared, displayed-as-none state). -/
def advanceTo (t : Nat) (st : MsgState) : MsgState :=
  if st.timers.any (fun d => decide (d ≤ t)) then
    { message := ""
      messageType := st.messageType
      timers := st.timers.filter (fun d => decide (t < d)) }
  else st

/-- C7: the synthesized registry has exactly 97 entries, all Available;
each floor 1..9 contributes exactly the ten rooms numbered
floor*100 + pos + 1 at positions 0..9, and floor 10 exactly the seven
rooms 1001..1007 at positions 0..6. -/
theorem initializeRooms_layout :
    initializeRooms.length = 97 ∧
    (∀ r ∈ initializeRooms, r.status = RoomStatus.available) ∧
    (∀ floor ∈ Finset.Icc 1 9,
      (initializeRooms.filter (fun r => r.floor == floor)).map
          (fun r => (r.room_number, r.position))
        = (List.range 10).map (fun pos => (floor * 100 + pos + 1, pos))) ∧
    (initializeRooms.filter (fun r => r.floor == 10)).map
        (fun r => (r.room_number, r.position))
      = (List.range 7).map (fun pos => (1000 + pos + 1, pos)) := by
  decide

/-- Witness for initializeRooms_layout at the first room and floor 3. -/
theorem initializeRooms_layout_witness :
    ({ room_number := 101, floor := 1, position := 0,
       status := RoomStatus.available, guest_id := none : Room }.status
        = RoomStatus.available) ∧
    (initializeRooms.filter (fun r => r.floor == 3)).map
        (fun r => (r.room_number, r.position))
      = (List.range 10).map (fun pos => (3 * 100 + pos + 1, pos)) :=
  ⟨initializeRooms_layout.2.1
      { room_number := 101, floor := 1, position := 0,
        status := RoomStatus.available, guest_id := none } (by decide),
    initializeRooms_layout.2.2.1 3 (by decide)⟩

/-- C9: for every registry state and floor, getRoomsForFloor returns
exactly the rooms whose floor field matches (a permutation of the filter,
with matching membership), ordered ascending by position. -/
theorem getRoomsForFloor_spec (rooms : List Room) (floor : Nat) :
    List.Perm (getRoomsForFloor rooms floor)
      (rooms.filter (fun r => r.floor == floor)) ∧
    (∀ r, r ∈ getRoomsForFloor rooms floor ↔ (r ∈ rooms ∧ r.floor = floor)) ∧
    List.Pairwise (fun a b => a.position ≤ b.position)
      (getRoomsForFloor rooms floor) := by
  have hperm : List.Perm (getRoomsForFloor rooms floor)
      (rooms.filter (fun r => r.floor == floor)) :=
    List.mergeSort_perm _ _
  refine ⟨hperm, ?_, ?_⟩
  · intro r
    rw [hperm.mem_iff, List.mem_filter]
    simp
  · have h := @List.sorted_mergeSort Room
      (fun a b => decide (a.position ≤ b.position))
      (fun a b c hab hbc => by
        simp only [decide_eq_true_eq] at hab hbc ⊢
        omega)
      (fun a b => by
        simp only [Bool.or_eq_true, decide_eq_true_eq]
        exact Nat.le_total a.position b.position)
      (rooms.filter (fun r => r.floor == floor))
    exact List.Pairwise.imp (fun hab => of_decide_eq_true hab) h

/-- The initial component state of App.tsx: numRooms is the string 1, the
rooms map is empty, loading is false, the message is empty with the
success default type, statistics start at 97 total / 97 available / 0
booked, and the path dialog is closed and empty. -/
def sessionStart : AppState :=
  { numRooms := "1"
    rooms := []
    loading := false
    message := ""
    messageType := MessageType.success
    statistics := { total_rooms := 97, available_rooms := 97, booked_rooms := 0 }
    showPathDialog := false
    roomPaths := [] }

/-- C3: when the numRooms input does not parse (parseInt yields NaN) or
parses outside 1..5, handleBook shows the fixed validation error message,
leaves the busy flag untouched, and issues no ServiceClient call at all. -/
theorem book_invalid_input_rejected (st : AppState) (outcome : BookOutcome)
    (fetch : FetchOutcome)
    (h : ∀ v, parseIntJS st.numRooms = some v → (v < 1 ∨ 5 < v)) :
    (handleBook st outcome fetch).1.message
        = "Please enter a number between 1 and 5" ∧
    (handleBook st outcome fetch).1.messageType = MessageType.error ∧
    (handleBook st outcome fetch).1.loading = st.loading ∧
    (handleBook st outcome fetch).2
        = [Event.setMsg "Please enter a number between 1 and 5"
            MessageType.error] ∧
    (∀ c, Event.call c ∉ (handleBook st outcome fetch).2) ∧
    Event.setLoading true ∉ (handleBook st outcome fetch).2 := by
  have hres : handleBook st outcome fetch
      = ({ st with
            message := "Please enter a number between 1 and 5"
            messageType := MessageType.error },
         [Event.setMsg "Please enter a number between 1 and 5"
            MessageType.error]) := by
    cases hp : parseIntJS st.numRooms with
    | none => simp [handleBook, hp]
    | some v =>
      have hv := h v hp
      simp [handleBook, hp, if_pos hv]
  rw [hres]
  simp

/-- Witness for book_invalid_input_rejected at the inputs 0, 6, -1 and
abc: none of them issues a network call; each run's whole event trace is
the single fixed validation message. -/
theorem book_invalid_input_rejected_witness :
    (handleBook { sessionStart with numRooms := "0" }
        (BookOutcome.err none) (FetchOutcome.err none)).2
      = [Event.setMsg "Please enter a number between 1 and 5"
          MessageType.error] ∧
    (handleBook { sessionStart with numRooms := "6" }
        (BookOutcome.err none) (FetchOutcome.err none)).2
      = [Event.setMsg "Please enter a number between 1 and 5"
          MessageType.error] ∧
    (handleBook { sessionStart with numRooms := "-1" }
        (BookOutcome.err none) (FetchOutcome.err none)).2
      = [Event.setMsg "Please enter a number between 1 and 5"
          MessageType.error] ∧
    (handleBook { sessionStart with numRooms := "abc" }
        (BookOutcome.err none) (FetchOutcome.err none)).2
      = [Event.setMsg "Please enter a number between 1 and 5"
          MessageType.error] := by
  refine ⟨?_, ?_, ?_, ?_⟩
  · exact (book_invalid_input_rejected _ _ _ (fun v hv => by
      rw [show parseIntJS "0" = some 0 from by decide] at hv
      rw [← Option.some.inj hv]
      decide)).2.2.2.1
  · exact (book_invalid_input_rejected _ _ _ (fun v hv => by
      rw [show parseIntJS "6" = some 6 from by decide] at hv
      rw [← Option.some.inj hv]
      decide)).2.2.2.1
  · exact (book_invalid_input_rejected _ _ _ (fun v hv => by
      rw [show parseIntJS "-1" = some (-1) from by decide] at hv
      rw [← Option.some.inj hv]
      decide)).2.2.2.1
  · exact (book_invalid_input_rejected _ _ _ (fun v hv => by
      rw [show parseIntJS "abc" = none from by decide] at hv
      exact Option.noConfusion hv)).2.2.2.1

/-- A session state captured while a booking is in flight: the busy flag
is set and the input field holds the text 2. -/
def busySession : AppState := { sessionStart with loading := true, numRooms := "2" }

/-- A concrete successful response for a two-room booking. -/
def bookedTwo : BookingResponse :=
  { success := true
    message := "Booked 2 rooms"
    booked_rooms := [101, 102]
    total_travel_time := some 7
    room_paths := none }

/-- A concrete successful refetch response. -/
def refetchOk : RoomStateResponse :=
  { rooms := [], total_rooms := 97, available_rooms := 95, booked_rooms := 2 }

/-- C1 counterexample: with the busy flag set, invoking book with a valid
input is not a no-op: the bookRooms ServiceClient call is still issued and
the session state changes.  The controller has no re-entrancy guard of its
own. -/
theorem handleBook_busy_counterexample :
    busySession.loading = true ∧
    Event.call (ApiCall.bookRooms 2)
      ∈ (handleBook busySession (BookOutcome.ok bookedTwo)
          (FetchOutcome.ok refetchOk)).2 ∧
    (handleBook busySession (BookOutcome.ok bookedTwo)
        (FetchOutcome.ok refetchOk)).1 ≠ busySession := by
  decide

/-- C1 as amended: the handlers read nothing but the input field before
calling the service, so with busy already true every action still issues
its ServiceClient call and still mutates the state (it ends with busy
false); re-entrance is prevented only by the disabled attribute on the
triggering buttons, not inside the controller. -/
theorem actions_ignore_busy_flag (st : AppState) (resp : BookingResponse)
    (m : MessageResponse) (f : FetchOutcome) (n : Int)
    (hb : st.loading = true)
    (hn : parseIntJS st.numRooms = some n) (h1 : 1 ≤ n) (h5 : n ≤ 5) :
    (Event.call (ApiCall.bookRooms n)
        ∈ (handleBook st (BookOutcome.ok resp) f).2 ∧
      (handleBook st (BookOutcome.ok resp) f).1 ≠ st) ∧
    (Event.call ApiCall.resetBookings
        ∈ (handleReset st (SimpleOutcome.ok m) f).2 ∧
      (handleReset st (SimpleOutcome.ok m) f).1 ≠ st) ∧
    (Event.call (ApiCall.generateRandomOccupancy 30)
        ∈ (handleRandom st (SimpleOutcome.ok m) f).2 ∧
      (handleRandom st (SimpleOutcome.ok m) f).1 ≠ st) := by
  have hcond : ¬(n < 1 ∨ 5 < n) := by omega
  refine ⟨⟨?_, ?_⟩, ⟨?_, ?_⟩, ⟨?_, ?_⟩⟩
  · simp only [handleBook, hn]
    rw [if_neg hcond]
    cases f <;> simp
  · intro heq
    have hl : (handleBook st (BookOutcome.ok resp) f).1.loading = false := by
      simp only [handleBook, hn]
      rw [if_neg hcond]
    rw [heq, hb] at hl
    exact Bool.noConfusion hl
  · cases f <;> simp [handleReset]
  · intro heq
    have hl : (handleReset st (SimpleOutcome.ok m) f).1.loading = false := by
      cases f <;> simp [handleReset, fetchRooms]
    rw [heq, hb] at hl
    exact Bool.noConfusion hl
  · cases f <;> simp [handleRandom, occupancyPercentage]
  · intro heq
    have hl : (handleRandom st (SimpleOutcome.ok m) f).1.loading = false := by
      cases f <;> simp [handleRandom, fetchRooms]
    rw [heq, hb] at hl
    exact Bool.noConfusion hl

/-- Witness for actions_ignore_busy_flag at the busy session with input 2. -/
theorem actions_ignore_busy_flag_witness :
    Event.call (ApiCall.bookRooms 2)
      ∈ (handleBook busySession (BookOutcome.ok bookedTwo)
          (FetchOutcome.err none)).2 ∧
    Event.call ApiCall.resetBookings
      ∈ (handleReset busySession
          (SimpleOutcome.ok { success := true, message := "ok" })
          (FetchOutcome.err none)).2 :=
  ⟨(actions_ignore_busy_flag busySession bookedTwo
      { success := true, message := "ok" } (FetchOutcome.err none) 2
      (by decide) (by decide) (by decide) (by decide)).1.1,
   (actions_ignore_busy_flag busySession bookedTwo
      { success := true, message := "ok" } (FetchOutcome.err none) 2
      (by decide) (by decide) (by decide) (by decide)).2.1.1⟩

/-- C8: every action run (book with a valid input, reset, random) sets the
busy flag as its first observable event and, success or failure, ends with
the busy flag cleared: the final state has loading false and the last
observable event is the finally-block setLoading false. -/
theorem busy_lifecycle (st : AppState) (ob : BookOutcome)
    (om om2 : SimpleOutcome) (f g k : FetchOutcome) (n : Int)
    (hn : parseIntJS st.numRooms = some n) (h1 : 1 ≤ n) (h5 : n ≤ 5) :
    ((handleBook st ob f).2.head? = some (Event.setLoading true) ∧
      (handleBook st ob f).2.getLast? = some (Event.setLoading false) ∧
      (handleBook st ob f).1.loading = false) ∧
    ((handleReset st om g).2.head? = some (Event.setLoading true) ∧
      (handleReset st om g).2.getLast? = some (Event.setLoading false) ∧
      (handleReset st om g).1.loading = false) ∧
    ((handleRandom st om2 k).2.head? = some (Event.setLoading true) ∧
      (handleRandom st om2 k).2.getLast? = some (Event.setLoading false) ∧
      (handleRandom st om2 k).1.loading = false) := by
  have hcond : ¬(n < 1 ∨ 5 < n) := by omega
  refine ⟨?_, ?_, ?_⟩
  · simp only [handleBook, hn, if_neg hcond]
    cases ob <;> cases f <;> exact ⟨rfl, rfl, rfl⟩
  · cases om <;> cases g <;> exact ⟨rfl, rfl, rfl⟩
  · cases om2 <;> cases k <;> exact ⟨rfl, rfl, rfl⟩

/-- Witness for busy_lifecycle at the start session with input 2. -/
theorem busy_lifecycle_witness :
    (handleBook { sessionStart with numRooms := "2" }
        (BookOutcome.ok bookedTwo) (FetchOutcome.ok refetchOk)).1.loading
      = false ∧
    (handleReset sessionStart
        (SimpleOutcome.err (some "boom")) (FetchOutcome.ok refetchOk)).1.loading
      = false :=
  ⟨(busy_lifecycle { sessionStart with numRooms := "2" }
      (BookOutcome.ok bookedTwo) (SimpleOutcome.err (some "boom"))
      (SimpleOutcome.err (some "boom")) (FetchOutcome.ok refetchOk)
      (FetchOutcome.ok refetchOk) (FetchOutcome.ok refetchOk) 2
      (by decide) (by decide) (by decide)).1.2.2,
   (busy_lifecycle sessionStart
      (BookOutcome.ok bookedTwo) (SimpleOutcome.err (some "boom"))
      (SimpleOutcome.err (some "boom")) (FetchOutcome.ok refetchOk)
      (FetchOutcome.ok refetchOk) (FetchOutcome.ok refetchOk) 1
      (by decide) (by decide) (by decide)).2.1.2.2⟩

/-- C4: a successful booking whose response carries a present, non-empty
room_paths sequence opens the dialog with exactly that sequence, replacing
the previous content; a failed booking, a reset and a random-occupancy run
leave the dialog visibility and content untouched. -/
theorem book_dialog_transitions (st : AppState) (resp : BookingResponse)
    (paths : List RoomPathInfo) (m : Option String) (om : SimpleOutcome)
    (f : FetchOutcome) (n : Int)
    (hn : parseIntJS st.numRooms = some n) (h1 : 1 ≤ n) (h5 : n ≤ 5) :
    (resp.room_paths = some paths → paths ≠ [] →
      (handleBook st (BookOutcome.ok resp) f).1.showPathDialog = true ∧
      (handleBook st (BookOutcome.ok resp) f).1.roomPaths = paths) ∧
    ((handleBook st (BookOutcome.err m) f).1.showPathDialog
        = st.showPathDialog ∧
      (handleBook st (BookOutcome.err m) f).1.roomPaths = st.roomPaths) ∧
    ((handleReset st om f).1.showPathDialog = st.showPathDialog ∧
      (handleReset st om f).1.roomPaths = st.roomPaths) ∧
    ((handleRandom st om f).1.showPathDialog = st.showPathDialog ∧
      (handleRandom st om f).1.roomPaths = st.roomPaths) := by
  have hcond : ¬(n < 1 ∨ 5 < n) := by omega
  refine ⟨?_, ?_, ?_, ?_⟩
  · intro hp hne
    have hlen : 0 < paths.length := List.length_pos.mpr hne
    simp only [handleBook, hn, if_neg hcond, hp, if_pos hlen]
    constructor <;> first | rfl | trivial
  · simp only [handleBook, hn, if_neg hcond]
    constructor <;> first | rfl | trivial
  · cases om <;> cases f <;> exact ⟨rfl, rfl⟩
  · cases om <;> cases f <;> exact ⟨rfl, rfl⟩

/-- A concrete path record for witnesses. -/
def pathToRoom203 : RoomPathInfo :=
  { room_number := 203
    floor := 2
    position := 2
    total_time := 7
    steps := ["Take stairs to floor 2", "Walk to room 203"] }

/-- Witness for book_dialog_transitions: a successful two-room booking
whose response carries one path record opens the dialog with exactly that
record. -/
theorem book_dialog_transitions_witness :
    (handleBook { sessionStart with numRooms := "2" }
        (BookOutcome.ok { bookedTwo with room_paths := some [pathToRoom203] })
        (FetchOutcome.ok refetchOk)).1.showPathDialog = true ∧
    (handleBook { sessionStart with numRooms := "2" }
        (BookOutcome.ok { bookedTwo with room_paths := some [pathToRoom203] })
        (FetchOutcome.ok refetchOk)).1.roomPaths = [pathToRoom203] :=
  (book_dialog_transitions { sessionStart with numRooms := "2" }
      { bookedTwo with room_paths := some [pathToRoom203] }
      [pathToRoom203] none (SimpleOutcome.err none)
      (FetchOutcome.ok refetchOk) 2
      (by decide) (by decide) (by decide)).1 rfl (by decide)

/-- C6: a successful booking with valid input displays exactly the message
built from the response text and the travel time, with the Success kind,
and the full registry refetch (the getRooms call) is issued strictly after
the booking call's success response is observed. -/
theorem book_success_message_and_refetch (st : AppState)
    (resp : BookingResponse) (f : FetchOutcome) (n : Int) (t : Nat)
    (hn : parseIntJS st.numRooms = some n) (h1 : 1 ≤ n) (h5 : n ≤ 5)
    (ht : resp.total_travel_time = some t) :
    Event.setMsg
        (resp.message ++ ". Travel time: " ++ toString t ++ " minutes")
        MessageType.success
      ∈ (handleBook st (BookOutcome.ok resp) f).2 ∧
    ∃ i j : Nat, i < j ∧
      (handleBook st (BookOutcome.ok resp) f).2[i]?
        = some (Event.respOk (ApiCall.bookRooms n)) ∧
      (handleBook st (BookOutcome.ok resp) f).2[j]?
        = some (Event.call ApiCall.getRooms) := by
  have hcond : ¬(n < 1 ∨ 5 < n) := by omega
  simp only [handleBook, hn, if_neg hcond, ht, jsShowOptNat]
  refine ⟨?_, 2, 5, by omega, ?_, ?_⟩
  · cases f <;> simp [fetchRooms]
  · cases f <;> rfl
  · cases f <;> rfl

/-- Witness for book_success_message_and_refetch at the concrete two-room
booking. -/
theorem book_success_message_and_refetch_witness :
    Event.setMsg "Booked 2 rooms. Travel time: 7 minutes"
        MessageType.success
      ∈ (handleBook { sessionStart with numRooms := "2" }
          (BookOutcome.ok bookedTwo) (FetchOutcome.ok refetchOk)).2 :=
  (book_success_message_and_refetch { sessionStart with numRooms := "2" }
      bookedTwo (FetchOutcome.ok refetchOk) 2 7
      (by decide) (by decide) (by decide) (by decide)).1

/-- C10: a successful booking whose response has no total_travel_time
displays the message with the literal text undefined interpolated into the
travel-time slot. -/
theorem book_undefined_travel_time (st : AppState)
    (resp : BookingResponse) (f : FetchOutcome) (n : Int)
    (hn : parseIntJS st.numRooms = some n) (h1 : 1 ≤ n) (h5 : n ≤ 5)
    (ht : resp.total_travel_time = none) :
    Event.setMsg (resp.message ++ ". Travel time: undefined minutes")
        MessageType.success
      ∈ (handleBook st (BookOutcome.ok resp) f).2 := by
  have hcond : ¬(n < 1 ∨ 5 < n) := by omega
  have htext : resp.message ++ ". Travel time: " ++ "undefined" ++ " minutes"
      = resp.message ++ ". Travel time: undefined minutes" := by
    rw [String.append_assoc, String.append_assoc]
    congr 1
  simp only [handleBook, hn, if_neg hcond, ht, jsShowOptNat, htext]
  cases f <;> simp [fetchRooms]

/-- Witness for book_undefined_travel_time at a concrete response without
a travel time. -/
theorem book_undefined_travel_time_witness :
    Event.setMsg "Booked 2 rooms. Travel time: undefined minutes"
        MessageType.success
      ∈ (handleBook { sessionStart with numRooms := "2" }
          (BookOutcome.ok { bookedTwo with total_travel_time := none })
          (FetchOutcome.ok refetchOk)).2 :=
  book_undefined_travel_time { sessionStart with numRooms := "2" }
    { bookedTwo with total_travel_time := none }
    (FetchOutcome.ok refetchOk) 2
    (by decide) (by decide) (by decide) (by decide)

/-- The message display state before any message: empty text, the success
default type, no pending timer. -/
def msgStart : MsgState :=
  { message := "", messageType := MessageType.success, timers := [] }

/-- C2 counterexample: message A at instant 0, message B at instant 1000
(inside the 3000 window).  At instant 3500, after A's deadline 3000 and
before B's deadline 4000, the displayed message is already cleared rather
than still B, and it is cleared exactly at instant 3000: showMessage never
cancels the previous setTimeout. -/
theorem showMessage_no_cancel_counterexample :
    (advanceTo 3500 (showMessageAt 1000 "B" MessageType.error
        (showMessageAt 0 "A" MessageType.success msgStart))).message = "" ∧
    (advanceTo 3000 (showMessageAt 1000 "B" MessageType.error
        (showMessageAt 0 "A" MessageType.success msgStart))).message = "" ∧
    (advanceTo 2999 (showMessageAt 1000 "B" MessageType.error
        (showMessageAt 0 "A" MessageType.success msgStart))).message = "B" ∧
    ("" : String) ≠ "B" := by
  decide

/-- C2 as amended: each showMessage schedules an independent, uncancelled
clear at its own set time plus 3000, so after message A at tA and message
B at tB inside A's window, B's text is displayed only until A's original
deadline: it survives to any instant before tA + 3000 and is cleared at
every instant from tA + 3000 on, not at tB + 3000. -/
theorem message_cleared_at_first_deadline (tA tB t : Nat) (a b : String)
    (ta tb : MessageType) (st : MsgState)
    (hts : st.timers = []) (hab : tA ≤ tB) (hwin : tB < tA + 3000) :
    (tB ≤ t → t < tA + 3000 →
      (advanceTo t (showMessageAt tB b tb
          (showMessageAt tA a ta st))).message = b) ∧
    (tA + 3000 ≤ t →
      (advanceTo t (showMessageAt tB b tb
          (showMessageAt tA a ta st))).message = "") := by
  constructor
  · intro h1 h2
    simp [showMessageAt, advanceTo, hts]
    rw [if_neg (by omega : ¬(tA + 3000 ≤ t ∨ tB + 3000 ≤ t))]
  · intro h1
    simp [showMessageAt, advanceTo, hts]
    rw [if_pos (by omega : tA + 3000 ≤ t ∨ tB + 3000 ≤ t)]

/-- Witness for message_cleared_at_first_deadline: A at 0, B at 1000; at
instant 2000 the display still shows B, at instant 3500 it is cleared. -/
theorem message_cleared_at_first_deadline_witness :
    (advanceTo 2000 (showMessageAt 1000 "B" MessageType.error
        (showMessageAt 0 "A" MessageType.success msgStart))).message = "B" ∧
    (advanceTo 3500 (showMessageAt 1000 "B" MessageType.error
        (showMessageAt 0 "A" MessageType.success msgStart))).message = "" :=
  ⟨(message_cleared_at_first_deadline 0 1000 2000 "A" "B"
      MessageType.success MessageType.error msgStart
      rfl (by decide) (by decide)).1 (by decide) (by decide),
   (message_cleared_at_first_deadline 0 1000 3500 "A" "B"
      MessageType.success MessageType.error msgStart
      rfl (by decide) (by decide)).2 (by decide)⟩

/-- An arbitrary failed booking payload for the C5 counterexample. -/
def failedBooking : BookingResponse :=
  { success := false
    message := ""
    booked_rooms := []
    total_travel_time := none
    room_paths := none }

/-- C5 counterexample: a non-ok booking response whose body carries a
present but empty detail field.  The code falls back to the generic text
even though detail is present, because the JavaScript logical-or treats
the empty string as falsy; the error text is therefore not the parsed
detail field. -/
theorem bookRooms_empty_detail_counterexample :
    ({ ok := false, value := failedBooking, detail := some "" }
        : ServerResponse BookingResponse).detail = some "" ∧
    api.bookRooms 2 none
        { ok := false, value := failedBooking, detail := some "" }
      = Except.error "Failed to book rooms" ∧
    ("Failed to book rooms" : String) ≠ "" :=
  ⟨rfl, rfl, by decide⟩

/-- C5 as amended: on a non-ok response, the booking endpoint's error text
is the parsed detail field when it is present and non-empty, and the fixed
fallback when detail is absent or empty (the logical-or falls back on any
falsy value); the fetch, reset and random-occupancy endpoints always fail
with their fixed generic texts regardless of the response body. -/
theorem error_text_asymmetry (rb : ServerResponse BookingResponse)
    (rf : ServerResponse RoomStateResponse)
    (rr rg : ServerResponse MessageResponse)
    (n : Int) (g : Option String) (p : Nat) (d : String)
    (hb : rb.ok = false) (hf : rf.ok = false) (hr : rr.ok = false)
    (hg : rg.ok = false) :
    (rb.detail = some d → d ≠ "" → api.bookRooms n g rb = Except.error d) ∧
    ((rb.detail = none ∨ rb.detail = some "") →
      api.bookRooms n g rb = Except.error "Failed to book rooms") ∧
    api.getRooms rf = Except.error "Failed to fetch rooms" ∧
    api.resetBookings rr = Except.error "Failed to reset bookings" ∧
    api.generateRandomOccupancy p rg
      = Except.error "Failed to generate random occupancy" := by
  refine ⟨?_, ?_, ?_, ?_, ?_⟩
  · intro hd hne
    simp [api.bookRooms, hb, jsOrElse, hd, hne]
  · intro hcase
    rcases hcase with h | h <;> simp [api.bookRooms, hb, jsOrElse, h]
  · simp [api.getRooms, hf]
  · simp [api.resetBookings, hr]
  · simp [api.generateRandomOccupancy, hg]

/-- An arbitrary failed fetch payload for witnesses. -/
def emptyRoomState : RoomStateResponse :=
  { rooms := [], total_rooms := 0, available_rooms := 0, booked_rooms := 0 }

/-- An arbitrary failed message payload for witnesses. -/
def failedMsg : MessageResponse := { success := false, message := "" }

/-- A non-ok booking exchange whose body detail is a non-empty text. -/
def bookFailDetail : ServerResponse BookingResponse :=
  { ok := false, value := failedBooking, detail := some "No rooms available" }

/-- A non-ok fetch exchange. -/
def fetchFail : ServerResponse RoomStateResponse :=
  { ok := false, value := emptyRoomState, detail := none }

/-- A non-ok reset exchange carrying the same body detail text. -/
def resetFail : ServerResponse MessageResponse :=
  { ok := false, value := failedMsg, detail := some "No rooms available" }

/-- A non-ok random-occupancy exchange. -/
def randomFail : ServerResponse MessageResponse :=
  { ok := false, value := failedMsg, detail := none }

/-- Witness for error_text_asymmetry at concrete non-ok responses: a
booking failure with the detail text No rooms available surfaces that
text, while a reset failure with the same body detail still surfaces the
fixed reset text. -/
theorem error_text_asymmetry_witness :
    api.bookRooms 2 none bookFailDetail
      = Except.error "No rooms available" ∧
    api.resetBookings resetFail
      = Except.error "Failed to reset bookings" :=
  ⟨(error_text_asymmetry bookFailDetail fetchFail resetFail randomFail
      2 none 30 "No rooms available" rfl rfl rfl rfl).1 rfl (by decide),
   (error_text_asymmetry bookFailDetail fetchFail resetFail randomFail
      2 none 30 "No rooms available" rfl rfl rfl rfl).2.2.2.1⟩
